import Mathlib

/-!
Verification of the time-series normalization and derived-statistics engine
of the climate dashboard (`src/app.js`).

The JavaScript code is shallowly embedded: metric values (IEEE floats in the
source) are modelled as rationals, JS arrays as lists, JS objects keyed by
year/month as association lists with distinct keys, and `null`/`undefined`
as `Option.none`.  `Object.keys(..).sort()` compares keys as strings by
code unit; this comparison is embedded explicitly (`charListLe`).
-/

namespace ClimateDashboard

/-- One record of `co2_monthly.json` (`{year, month, average}`);
`month` is kept as an integer because malformed documents may carry
out-of-range months, which the code must tolerate. -/
structure Obs where
  year : Int
  month : Int
  average : ℚ
deriving DecidableEq

/-- One record of `temperature_anomaly.json` (`{year, month, anomaly}`). -/
structure TObs where
  year : Int
  month : Int
  anomaly : ℚ
deriving DecidableEq

/-- One element of a sea-ice year array (`{month, extent}`). -/
structure IceObs where
  month : Int
  extent : ℚ
deriving DecidableEq

/-- Lexicographic comparison of two character lists by code point; this is
the comparison `Array.prototype.sort()` applies (via string comparison by
code unit, which agrees with code points on the ASCII keys occurring here). -/
def charListLe : List Char → List Char → Bool
  | [], _ => true
  | _ :: _, [] => false
  | a :: as, b :: bs =>
    if a.toNat < b.toNat then true
    else if b.toNat < a.toNat then false
    else charListLe as bs

/-- String comparison by code unit, as used by the JS default sort. -/
def strLe (a b : String) : Bool := charListLe a.data b.data

/-- The order in which `Object.keys(dataByYear).sort()` arranges year keys:
years are object keys, hence strings, compared lexicographically —
not numerically. -/
def yearKeyLe (a b : Int) : Prop := strLe (toString a) (toString b) = true

instance : DecidableRel yearKeyLe := fun a b => by
  unfold yearKeyLe; infer_instance

theorem charListLe_total (xs ys : List Char) :
    charListLe xs ys = true ∨ charListLe ys xs = true := by
  induction xs generalizing ys with
  | nil => left; simp [charListLe]
  | cons a as ih =>
    cases ys with
    | nil => right; simp [charListLe]
    | cons b bs =>
      rcases Nat.lt_trichotomy a.toNat b.toNat with h | h | h
      · left; simp [charListLe, h]
      · have hh : ¬ a.toNat < b.toNat := by omega
        have hh' : ¬ b.toNat < a.toNat := by omega
        rcases ih bs with h2 | h2
        · left; simp [charListLe, hh, hh', h2]
        · right; simp [charListLe, hh, hh', h2]
      · right; simp [charListLe, h]

theorem charListLe_trans (xs ys zs : List Char)
    (h1 : charListLe xs ys = true) (h2 : charListLe ys zs = true) :
    charListLe xs zs = true := by
  induction xs generalizing ys zs with
  | nil => simp [charListLe]
  | cons a as ih =>
    cases ys with
    | nil => simp [charListLe] at h1
    | cons b bs =>
      cases zs with
      | nil => simp [charListLe] at h2
      | cons c cs =>
        simp only [charListLe] at h1 h2 ⊢
        split_ifs at h1 h2 ⊢ with hab hba hbc hcb hac hca
        all_goals first
          | rfl
          | omega
          | (exact ih bs cs h1 h2)

instance : IsTotal Int yearKeyLe :=
  ⟨fun a b => charListLe_total (toString a).data (toString b).data⟩

instance : IsTrans Int yearKeyLe :=
  ⟨fun _ _ _ h1 h2 => charListLe_trans _ _ _ h1 h2⟩

/-! ## Normalizer (renderCO2Chart lines 180–192) -/

/-- The key set of the JS object `dataByYear`: every observation registers
its year as a key (`if (!dataByYear[d.year]) dataByYear[d.year] = ...`),
regardless of whether its month is in range. -/
def yearsOf (data : List Obs) : List Int := (data.map (·.year)).dedup

/-- The effect of one forEach step on the bucket of year `y`
(`if (d.month >= 1 && d.month <= 12) dataByYear[d.year][d.month - 1] = d.average`):
only an observation of year `y` with month in `[1,12]` writes a slot. -/
def bucketStep (y : Int) (b : List (Option ℚ)) (d : Obs) : List (Option ℚ) :=
  if d.year = y then
    (if 1 ≤ d.month ∧ d.month ≤ 12 then
      b.set (d.month - 1).toNat (some d.average)
    else b)
  else b

/-- Content of `dataByYear[y]`: a dense 12-slot array initialised to `null`,
with slot `month - 1` set to `average` for each observation of year `y`
whose month lies in `[1,12]`; later writes win. -/
def bucket (data : List Obs) (y : Int) : List (Option ℚ) :=
  data.foldl (bucketStep y) (List.replicate 12 none)

/-- Embedding of `Object.keys(dataByYear).sort().reverse().slice(0, k)`: the displayed
years, sorted as strings ascending, reversed, first `k` taken (the source
hard-codes `k = 5`). -/
def outputYears (data : List Obs) (k : Nat) : List Int :=
  ((List.insertionSort yearKeyLe (yearsOf data)).reverse).take k

/-- The Normalizer of the CO₂ indicator: the displayed year buckets, in
display order, as pairs (year, 12-slot array). -/
def normalizeCO2 (data : List Obs) (k : Nat) : List (Int × List (Option ℚ)) :=
  (outputYears data k).map (fun y => (y, bucket data y))

theorem bucketStep_length (y : Int) (b : List (Option ℚ)) (d : Obs) :
    (bucketStep y b d).length = b.length := by
  unfold bucketStep
  split_ifs <;> simp [List.length_set]

theorem foldl_bucketStep_length (y : Int) :
    ∀ (l : List Obs) (b : List (Option ℚ)),
      (List.foldl (bucketStep y) b l).length = b.length := by
  intro l
  induction l with
  | nil => intro b; rfl
  | cons d l ih => intro b; rw [List.foldl_cons, ih, bucketStep_length]

theorem bucket_length (data : List Obs) (y : Int) : (bucket data y).length = 12 := by
  rw [bucket, foldl_bucketStep_length, List.length_replicate]

theorem outputYears_pairwise (data : List Obs) (k : Nat) :
    List.Pairwise (fun a b => yearKeyLe b a) (outputYears data k) := by
  have hs : List.Sorted yearKeyLe (List.insertionSort yearKeyLe (yearsOf data)) :=
    List.sorted_insertionSort yearKeyLe (yearsOf data)
  have hr : List.Pairwise (fun a b => yearKeyLe b a)
      ((List.insertionSort yearKeyLe (yearsOf data)).reverse) :=
    List.pairwise_reverse.mpr hs
  exact List.Pairwise.sublist (List.take_sublist k _) hr

theorem outputYears_nodup (data : List Obs) (k : Nat) :
    (outputYears data k).Nodup := by
  have h1 : (yearsOf data).Nodup := List.nodup_dedup _
  have h2 : (List.insertionSort yearKeyLe (yearsOf data)).Nodup :=
    ((List.perm_insertionSort yearKeyLe (yearsOf data)).nodup_iff).mpr h1
  exact (List.take_sublist k _).nodup (List.nodup_reverse.mpr h2)

theorem outputYears_subset (data : List Obs) (k : Nat) :
    ∀ y ∈ outputYears data k, y ∈ yearsOf data := by
  intro y hy
  have h1 := (List.take_sublist k _).subset hy
  rw [List.mem_reverse] at h1
  exact (List.perm_insertionSort yearKeyLe (yearsOf data)).subset h1

theorem normalizeCO2_map_fst (data : List Obs) (k : Nat) :
    (normalizeCO2 data k).map Prod.fst = outputYears data k := by
  rw [normalizeCO2, List.map_map]
  exact List.map_id _

/-- C2 (amended) — the Normalizer returns at most `k` Year Buckets, each of
length exactly 12, with pairwise-distinct years drawn from the document,
ordered by descending lexicographic order of the decimal year strings (the
order `Object.keys(..).sort().reverse()` produces) — which is descending
numeric order only when all year strings have equal length. -/
theorem c2_normalizer_shape (data : List Obs) (k : Nat) :
    (normalizeCO2 data k).length ≤ k
    ∧ (∀ p ∈ normalizeCO2 data k, p.2.length = 12)
    ∧ ((normalizeCO2 data k).map Prod.fst).Nodup
    ∧ List.Pairwise (fun a b => yearKeyLe b a) ((normalizeCO2 data k).map Prod.fst)
    ∧ (∀ p ∈ normalizeCO2 data k, p.1 ∈ yearsOf data) := by
  refine ⟨?_, ?_, ?_, ?_, ?_⟩
  · simp only [normalizeCO2, List.length_map, outputYears]
    exact List.length_take_le k _
  · intro p hp
    obtain ⟨y, _, rfl⟩ := List.mem_map.mp hp
    exact bucket_length data y
  · rw [normalizeCO2_map_fst]; exact outputYears_nodup data k
  · rw [normalizeCO2_map_fst]; exact outputYears_pairwise data k
  · intro p hp
    obtain ⟨y, hy, rfl⟩ := List.mem_map.mp hp
    exact outputYears_subset data k y hy

/-- Witness for C2 (amended): a two-year document at the source's `k = 5`. -/
theorem c2_witness :
    (normalizeCO2 [⟨2023, 2, 417⟩, ⟨2024, 3, 421⟩] 5).length ≤ 5
    ∧ (2024, bucket [⟨2023, 2, 417⟩, ⟨2024, 3, 421⟩] 2024).2.length = 12
    ∧ ((normalizeCO2 [⟨2023, 2, 417⟩, ⟨2024, 3, 421⟩] 5).map Prod.fst).Nodup
    ∧ (2024, bucket [⟨2023, 2, 417⟩, ⟨2024, 3, 421⟩] 2024).1
        ∈ yearsOf [⟨2023, 2, 417⟩, ⟨2024, 3, 421⟩] := by
  have h := c2_normalizer_shape [⟨2023, 2, 417⟩, ⟨2024, 3, 421⟩] 5
  have hmem : (2024, bucket [⟨2023, 2, 417⟩, ⟨2024, 3, 421⟩] 2024)
      ∈ normalizeCO2 [⟨2023, 2, 417⟩, ⟨2024, 3, 421⟩] 5 := by
    rw [show normalizeCO2 [⟨2023, 2, 417⟩, ⟨2024, 3, 421⟩] 5 =
      [(2024, bucket [⟨2023, 2, 417⟩, ⟨2024, 3, 421⟩] 2024),
       (2023, bucket [⟨2023, 2, 417⟩, ⟨2024, 3, 421⟩] 2023)] from rfl]
    exact List.mem_cons_self _ _
  exact ⟨h.1, h.2.1 _ hmem, h.2.2.1, h.2.2.2.2 _ hmem⟩

/-- Counterexample for C2: with year keys of unequal digit length the
lexicographic key sort is not numeric — for the document with years
9..14 and the source's `k = 5`, the output years are `[9, 14, 13, 12, 11]`:
year 10 (more recent than 9) is dropped, and the list is not numerically
descending. -/
theorem c2_counterexample :
    (normalizeCO2 [⟨9, 1, 1⟩, ⟨10, 1, 2⟩, ⟨11, 1, 3⟩, ⟨12, 1, 4⟩, ⟨13, 1, 5⟩, ⟨14, 1, 6⟩] 5).map
      Prod.fst = [9, 14, 13, 12, 11]
    ∧ (10 : Int) ∈ yearsOf [⟨9, 1, 1⟩, ⟨10, 1, 2⟩, ⟨11, 1, 3⟩, ⟨12, 1, 4⟩, ⟨13, 1, 5⟩, ⟨14, 1, 6⟩]
    ∧ (10 : Int) ∉
        (normalizeCO2 [⟨9, 1, 1⟩, ⟨10, 1, 2⟩, ⟨11, 1, 3⟩, ⟨12, 1, 4⟩, ⟨13, 1, 5⟩, ⟨14, 1, 6⟩] 5).map
          Prod.fst
    ∧ ¬ List.Pairwise (fun a b : Int => b < a)
        ((normalizeCO2 [⟨9, 1, 1⟩, ⟨10, 1, 2⟩, ⟨11, 1, 3⟩, ⟨12, 1, 4⟩, ⟨13, 1, 5⟩, ⟨14, 1, 6⟩] 5).map
          Prod.fst) := by
  refine ⟨by decide, by decide, by decide, by decide⟩

theorem bucketStep_getElem?_of_ne (y : Int) (b : List (Option ℚ)) (d : Obs) (i : Nat)
    (h : d.year = y → 1 ≤ d.month → d.month ≤ 12 → (d.month - 1).toNat ≠ i) :
    (bucketStep y b d)[i]? = b[i]? := by
  unfold bucketStep
  split_ifs with h1 h2
  · exact List.getElem?_set_ne (h h1 h2.1 h2.2)
  · rfl
  · rfl

theorem foldl_bucketStep_getElem? (y : Int) (i : Nat) :
    ∀ (l : List Obs) (b : List (Option ℚ)),
      (∀ d ∈ l, d.year = y → 1 ≤ d.month → d.month ≤ 12 → (d.month - 1).toNat ≠ i) →
      (List.foldl (bucketStep y) b l)[i]? = b[i]? := by
  intro l
  induction l with
  | nil => intro b _; rfl
  | cons d l ih =>
    intro b hl
    rw [List.foldl_cons, ih _ (fun e he => hl e (List.mem_cons_of_mem d he)),
      bucketStep_getElem?_of_ne y b d i (hl d (List.mem_cons_self d l))]

/-- C3 (amended) — an Observation with month `m ∈ [1,12]` that is not
overwritten by a later duplicate of the same (year, month) lands at slot
`m − 1` of its year's bucket; an Observation with `m` outside `[1,12]`
writes no slot of any bucket, but it still registers its year as a bucket
key: the key set gains exactly that year (so the normalized output is not
in general identical to the output without the Observation). -/
theorem c3_month_placement :
    (∀ (pre post : List Obs) (d : Obs), 1 ≤ d.month → d.month ≤ 12 →
      (∀ e ∈ post, e.year = d.year → e.month ≠ d.month) →
      (bucket (pre ++ d :: post) d.year)[(d.month - 1).toNat]? = some (some d.average))
    ∧ (∀ (pre post : List Obs) (d : Obs), ¬(1 ≤ d.month ∧ d.month ≤ 12) →
      (∀ y, bucket (pre ++ d :: post) y = bucket (pre ++ post) y)
      ∧ (∀ y, y ∈ yearsOf (pre ++ d :: post) ↔ y = d.year ∨ y ∈ yearsOf (pre ++ post))) := by
  constructor
  · intro pre post d h1 h12 hpost
    rw [bucket, List.foldl_append, List.foldl_cons]
    rw [foldl_bucketStep_getElem? d.year _ post _ ?_]
    · have hstep : bucketStep d.year (List.foldl (bucketStep d.year) (List.replicate 12 none) pre) d =
          (List.foldl (bucketStep d.year) (List.replicate 12 none) pre).set
            (d.month - 1).toNat (some d.average) := by
        unfold bucketStep
        rw [if_pos rfl, if_pos ⟨h1, h12⟩]
      rw [hstep]
      refine List.getElem?_set_self ?_
      rw [foldl_bucketStep_length, List.length_replicate]
      omega
    · intro e he hey he1 he12 hcon
      exact hpost e he hey (by omega)
  · intro pre post d hd
    constructor
    · intro y
      have hstep : ∀ b, bucketStep y b d = b := by
        intro b
        unfold bucketStep
        rw [if_neg hd, ite_self]
      rw [bucket, bucket, List.foldl_append, List.foldl_append, List.foldl_cons, hstep]
    · intro y
      simp only [yearsOf, List.mem_dedup, List.map_append, List.map_cons, List.mem_append,
        List.mem_cons]
      tauto

/-- Counterexample for C3: a single Observation with month 13 does change
the Normalizer's entire output — it adds an all-null Year Bucket for 2020 —
even though (as the claim's example demands) the 2020 slots themselves are
untouched. -/
theorem c3_counterexample :
    normalizeCO2 [⟨2020, 13, 5⟩] 5 ≠ normalizeCO2 [] 5
    ∧ bucket [⟨2020, 13, 5⟩] 2020 = bucket [] 2020
    ∧ (normalizeCO2 [⟨2020, 13, 5⟩] 5).map Prod.fst = [2020] := by
  refine ⟨by decide, by decide, by decide⟩

/-- Witness for C3 (amended): month 4 lands at slot 3; month 13 changes no
slot of the 2020 bucket. -/
theorem c3_witness :
    (bucket [⟨2021, 4, 7⟩] 2021)[(3 : Nat)]? = some (some 7)
    ∧ bucket [⟨2020, 13, 5⟩] 2020 = bucket [] 2020 := by
  constructor
  · have h := c3_month_placement.1 [] [] ⟨2021, 4, 7⟩ (by decide) (by decide)
      (by intro e he; simp at he)
    simpa using h
  · exact (c3_month_placement.2 [] [] ⟨2020, 13, 5⟩ (by decide)).1 2020

/-! ## Aggregator: reference curve (getMonthlyBaseline lines 161–173) -/

/-- The filter applied by `getMonthlyBaseline`'s forEach for slot `i`
(0-based): year inside the inclusive window and month equal to `i + 1`. -/
def baselineHits (data : List Obs) (startYear endYear : Int) (i : Nat) : List Obs :=
  data.filter (fun d =>
    decide (startYear ≤ d.year) && decide (d.year ≤ endYear) &&
    decide (1 ≤ d.month) && decide (d.month ≤ 12) && decide (d.month = (i : Int) + 1))

/-- Value of `monthlyCounts[i]` after the forEach pass. -/
def monthlyCount (data : List Obs) (startYear endYear : Int) (i : Nat) : Nat :=
  (baselineHits data startYear endYear i).length

/-- Value of `monthlySums[i]` after the forEach pass (float accumulation in source,
rational here), accumulated in list order. -/
def monthlySum (data : List Obs) (startYear endYear : Int) (i : Nat) : ℚ :=
  (baselineHits data startYear endYear i).foldl (fun s d => s + d.average) 0

/-- The helper `getMonthlyBaseline(data, startYear, endYear)`: per-slot mean when the
count is positive, `null` otherwise
(`monthlySums.map((sum, i) => monthlyCounts[i] > 0 ? sum / monthlyCounts[i] : null)`). -/
def getMonthlyBaseline (data : List Obs) (startYear endYear : Int) : List (Option ℚ) :=
  (List.range 12).map (fun i =>
    if monthlyCount data startYear endYear i > 0 then
      some (monthlySum data startYear endYear i / (monthlyCount data startYear endYear i : ℚ))
    else none)

/-- The claim of C6 as stated, settled below. -/
theorem getMonthlyBaseline_length (data : List Obs) (startYear endYear : Int) :
    (getMonthlyBaseline data startYear endYear).length = 12 := by
  simp [getMonthlyBaseline]

/-- C6 — For every document and inclusive window, a calendar month with zero
matching observations yields an absent (`none`) slot — never `0` and never a
computed quotient (the division is guarded by a positive count) — and a
window matched by no observation yields 12 absent slots. -/
theorem c6_baseline_absent_slots (data : List Obs) (startYear endYear : Int) :
    (∀ i : Nat, i < 12 → monthlyCount data startYear endYear i = 0 →
      (getMonthlyBaseline data startYear endYear)[i]? = some none)
    ∧ ((∀ d ∈ data, ¬(startYear ≤ d.year ∧ d.year ≤ endYear)) →
       getMonthlyBaseline data startYear endYear = List.replicate 12 none) := by
  constructor
  · intro i hi hc
    have : (List.range 12)[i]? = some i := by
      simp [List.getElem?_range hi]
    simp [getMonthlyBaseline, List.getElem?_map, this, hc]
  · intro h
    have hc : ∀ i, monthlyCount data startYear endYear i = 0 := by
      intro i
      simp only [monthlyCount, baselineHits, List.length_eq_zero,
        List.filter_eq_nil_iff]
      intro d hd
      have := h d hd
      simp only [Bool.and_eq_true, decide_eq_true_eq]
      intro hcon
      exact this ⟨hcon.1.1.1.1, hcon.1.1.1.2⟩
    have : (getMonthlyBaseline data startYear endYear) =
        (List.range 12).map (fun _ => (none : Option ℚ)) := by
      simp only [getMonthlyBaseline]
      refine List.map_congr_left ?_
      intro i _
      simp [hc i]
    rw [this, List.map_const', List.length_range]

/-- Witness for C6: a document whose only observation lies outside the
window `[1991, 2019]` produces an absent January slot and an all-absent
reference curve. -/
theorem c6_witness :
    (getMonthlyBaseline [⟨2020, 5, 1⟩] 1991 2019)[(0 : Nat)]? = some none
    ∧ getMonthlyBaseline [⟨2020, 5, 1⟩] 1991 2019 = List.replicate 12 none := by
  refine ⟨(c6_baseline_absent_slots [⟨2020, 5, 1⟩] 1991 2019).1 0 (by decide) (by decide),
    (c6_baseline_absent_slots [⟨2020, 5, 1⟩] 1991 2019).2 ?_⟩
  intro d hd
  simp only [List.mem_singleton] at hd
  subst hd
  decide

/-! ## Aggregator: KPI deltas (updateStats lines 51–145) -/

/-- Line 54, `state.co2Data.data[state.co2Data.data.length - 1]`: the
"current" observation is the LAST ARRAY ELEMENT, not a (year, month)
maximum. -/
def latestObs (data : List Obs) : Option Obs := data.getLast?

/-- Chronological order on observations: strictly earlier year, or same
year and weakly earlier month. -/
def chronLe (a b : Obs) : Prop :=
  a.year < b.year ∨ (a.year = b.year ∧ a.month ≤ b.month)

instance : DecidableRel chronLe := fun a b => by
  unfold chronLe; infer_instance

theorem mem_of_getLast? {α : Type} : ∀ {l : List α} {a : α}, l.getLast? = some a → a ∈ l
  | [], a, h => by simp at h
  | [x], a, h => by
      simp only [List.getLast?_singleton, Option.some.injEq] at h
      simp [h]
  | x :: y :: t, a, h => by
      rw [List.getLast?_cons_cons] at h
      exact List.mem_cons_of_mem x (mem_of_getLast? h)

theorem sorted_chronLe_getLast? :
    ∀ (data : List Obs), List.Sorted chronLe data →
      ∀ l, data.getLast? = some l → ∀ o ∈ data, chronLe o l := by
  intro data
  induction data with
  | nil => intro _ l hl; simp at hl
  | cons a rest ih =>
    intro hs l hl o ho
    rcases List.mem_cons.mp ho with rfl | ho'
    · cases rest with
      | nil =>
        simp only [List.getLast?_singleton, Option.some.injEq] at hl
        subst hl
        exact Or.inr ⟨rfl, le_refl _⟩
      | cons b bs =>
        rw [List.getLast?_cons_cons] at hl
        exact List.rel_of_sorted_cons hs l (mem_of_getLast? hl)
    · cases rest with
      | nil => simp at ho'
      | cons b bs =>
        rw [List.getLast?_cons_cons] at hl
        exact ih hs.of_cons l hl o ho'

/-- C5 (amended) — the "current" observation used by the year-over-year KPI
is the last element of the observation array; when the array is sorted
chronologically this is the (year, month)-maximal observation, but for
unsorted arrays it need not be (see the counterexample). -/
theorem c5_latest_is_last (data : List Obs) (hs : List.Sorted chronLe data)
    (l : Obs) (hl : latestObs data = some l) : ∀ o ∈ data, chronLe o l :=
  sorted_chronLe_getLast? data hs l hl

/-- Witness for C5 (amended): a chronologically sorted two-element document. -/
theorem c5_witness :
    List.Sorted chronLe [(⟨2023, 6, 418⟩ : Obs), ⟨2024, 6, 420⟩]
    ∧ latestObs [(⟨2023, 6, 418⟩ : Obs), ⟨2024, 6, 420⟩] = some ⟨2024, 6, 420⟩
    ∧ chronLe ⟨2023, 6, 418⟩ ⟨2024, 6, 420⟩ := by
  have hs : List.Sorted chronLe [(⟨2023, 6, 418⟩ : Obs), ⟨2024, 6, 420⟩] := by
    simp only [List.sorted_cons, List.mem_singleton, List.sorted_singleton,
      List.not_mem_nil, false_implies, implies_true, and_true]
    refine ⟨fun b hb => ?_, trivial, List.sorted_nil⟩
    subst hb
    exact Or.inl (by norm_num)
  refine ⟨hs, rfl, c5_latest_is_last _ hs _ rfl _ (by decide)⟩

/-- Counterexample for C5: in an unsorted document the code picks the last
array element (2023-06) as "current", even though 2024-06 is present and
chronologically later. -/
theorem c5_counterexample :
    latestObs [⟨2024, 6, 420⟩, ⟨2023, 6, 418⟩] = some ⟨2023, 6, 418⟩
    ∧ (⟨2024, 6, 420⟩ : Obs) ∈ [(⟨2024, 6, 420⟩ : Obs), ⟨2023, 6, 418⟩]
    ∧ ¬ chronLe ⟨2024, 6, 420⟩ ⟨2023, 6, 418⟩ := by
  refine ⟨rfl, by decide, by decide⟩

/-- Year-over-year CO₂ KPI (updateStats lines 53–67): `let change = 0;
if (previousYearCO2) change = latestCO2.average - previousYearCO2.average` —
`change` stays 0 when `data.find(d => d.year === latestCO2.year - 1 &&
d.month === latestCO2.month)` finds nothing. -/
def co2Change (data : List Obs) : ℚ :=
  match latestObs data with
  | none => 0
  | some latest =>
    match data.find? (fun d =>
        decide (d.year = latest.year - 1) && decide (d.month = latest.month)) with
    | some prev => latest.average - prev.average
    | none => 0

/-- The document `sea_ice_extent.json` in memory: `data` is an object keyed by year
(an association list with distinct keys), `median` an optional object keyed
by month, `last_updated` an optional timestamp. -/
structure SeaIceDoc where
  data : List (Int × List IceObs)
  median : Option (List (Int × ℚ))
  last_updated : Option String
deriving DecidableEq

/-- The key set of `state.seaIceData.data`. -/
def iceYears (doc : SeaIceDoc) : List Int := (doc.data.map Prod.fst).dedup

/-- Lookup `state.seaIceData.data[y]` — association lookup. -/
def lookupYear (doc : SeaIceDoc) (y : Int) : Option (List IceObs) :=
  (doc.data.find? (fun p => decide (p.1 = y))).map Prod.snd

/-- updateStats lines 105–111: `years = Object.keys(data).sort().reverse()`,
`latestYear = years[0]`,
`latestMonth = latestYearData[latestYearData.length - 1]`, all guarded by
`years.length > 0` and `if (latestMonth)` (an empty year array gives
`undefined`, which is falsy). -/
def seaIceLatest (doc : SeaIceDoc) : Option (Int × IceObs) :=
  match ((List.insertionSort yearKeyLe (iceYears doc)).reverse).head? with
  | none => none
  | some y =>
    match ((lookupYear doc y).getD []).getLast? with
    | none => none
    | some o => some (y, o)

/-- Lookup `state.seaIceData.median[m]` — association lookup. -/
def medianLookup (med : List (Int × ℚ)) (m : Int) : Option ℚ :=
  (med.find? (fun p => decide (p.1 = m))).map Prod.snd

/-- JS truthiness of the looked-up numeric value: `undefined` and `0` are
falsy (`if (state.seaIceData.median && state.seaIceData.median[latestMonth.month])`). -/
def truthyVal : Option ℚ → Bool
  | none => false
  | some v => decide (v ≠ 0)

/-- updateStats lines 116–121: `let diff = 0` reassigned only when the
median object exists and the looked-up entry is truthy; `none` means the
whole sea-ice stat tile update was skipped. -/
def seaIceDiff (doc : SeaIceDoc) : Option ℚ :=
  (seaIceLatest doc).map (fun yo =>
    match doc.median with
    | none => 0
    | some med =>
      if truthyVal (medianLookup med yo.2.month) then
        yo.2.extent - (medianLookup med yo.2.month).getD 0
      else 0)

/-- C1 (amended) — the delta computation layer produces no distinguishable
"unavailable" value: whenever no comparison basis exists (no prior-year
observation for CO₂; a missing — or zero-valued, by truthiness — median
entry for sea ice), the computed delta is exactly 0, the same value a
genuinely zero comparison yields. -/
theorem c1_delta_defaults_to_zero :
    (∀ (data : List Obs) (l : Obs), latestObs data = some l →
      data.find? (fun d =>
        decide (d.year = l.year - 1) && decide (d.month = l.month)) = none →
      co2Change data = 0)
    ∧ (∀ (doc : SeaIceDoc) (p : Int × IceObs) (med : List (Int × ℚ)),
        seaIceLatest doc = some p → doc.median = some med →
        truthyVal (medianLookup med p.2.month) = false →
        seaIceDiff doc = some 0)
    ∧ (∀ (doc : SeaIceDoc) (p : Int × IceObs),
        seaIceLatest doc = some p → doc.median = none → seaIceDiff doc = some 0) := by
  refine ⟨?_, ?_, ?_⟩
  · intro data l hl hf
    simp only [co2Change, hl, hf]
  · intro doc p med hp hm ht
    simp [seaIceDiff, hp, hm, ht]
  · intro doc p hp hm
    simp [seaIceDiff, hp, hm]

/-- Counterexample for C1: the document holding only 2022-06 and 2024-06 has
no prior-year comparator for its latest observation (2024-06), yet the delta
layer returns exactly 0 — indistinguishable from the document whose
year-over-year delta is a genuinely computed 0. -/
theorem c1_counterexample :
    co2Change [⟨2022, 6, 410⟩, ⟨2024, 6, 420⟩] = 0
    ∧ [(⟨2022, 6, 410⟩ : Obs), ⟨2024, 6, 420⟩].find?
        (fun d => decide (d.year = 2023) && decide (d.month = 6)) = none
    ∧ co2Change [⟨2023, 6, 415⟩, ⟨2024, 6, 415⟩] = 0 := by
  refine ⟨rfl, rfl, ?_⟩
  have h : co2Change [⟨2023, 6, 415⟩, ⟨2024, 6, 415⟩] = (415 : ℚ) - 415 := rfl
  rw [h]
  norm_num

/-- Witness for C1 (amended): no prior-year CO₂ observation; a sea-ice
document with a zero median entry; a sea-ice document without a median
object. -/
theorem c1_witness :
    co2Change [⟨2024, 9, 421⟩] = 0
    ∧ seaIceDiff ⟨[(2024, [⟨9, 5⟩])], some [(9, 0)], none⟩ = some 0
    ∧ seaIceDiff ⟨[(2024, [⟨9, 5⟩])], none, none⟩ = some 0 :=
  ⟨c1_delta_defaults_to_zero.1 [⟨2024, 9, 421⟩] ⟨2024, 9, 421⟩ rfl rfl,
   c1_delta_defaults_to_zero.2.1 _ (2024, ⟨9, 5⟩) [(9, 0)] rfl rfl rfl,
   c1_delta_defaults_to_zero.2.2 _ (2024, ⟨9, 5⟩) rfl rfl⟩

/-- C9 — the sea-ice median lookup is guarded by truthiness, so a median
entry that is exactly 0 for the latest observation's month is treated as
absent: the displayed delta is 0, not `latest.extent - 0`. -/
theorem c9_zero_median_is_falsy (doc : SeaIceDoc) (p : Int × IceObs)
    (med : List (Int × ℚ)) (hp : seaIceLatest doc = some p)
    (hm : doc.median = some med) (hl : medianLookup med p.2.month = some 0) :
    seaIceDiff doc = some 0
    ∧ (p.2.extent ≠ 0 → seaIceDiff doc ≠ some (p.2.extent - 0)) := by
  have h0 : seaIceDiff doc = some 0 := by
    simp [seaIceDiff, hp, hm, hl, truthyVal]
  refine ⟨h0, fun hne hcon => ?_⟩
  rw [h0] at hcon
  have h1 : (0 : ℚ) = p.2.extent - 0 := Option.some.inj hcon
  rw [sub_zero] at h1
  exact hne h1.symm

/-- Witness for C9: year 2024 = `[{month: 9, extent: 5}]`, median `{9: 0}`:
the delta is 0, not `5 - 0`. -/
theorem c9_witness :
    seaIceDiff ⟨[(2024, [⟨9, 5⟩])], some [(9, 0)], some "x"⟩ = some 0
    ∧ seaIceDiff ⟨[(2024, [⟨9, 5⟩])], some [(9, 0)], some "x"⟩ ≠ some ((5 : ℚ) - 0) := by
  have h := c9_zero_median_is_falsy ⟨[(2024, [⟨9, 5⟩])], some [(9, 0)], some "x"⟩
    (2024, ⟨9, 5⟩) [(9, 0)] rfl rfl rfl
  exact ⟨h.1, h.2 (by norm_num)⟩

/-! ## Stat Builder: number formatting (utils.formatNumber line 23, KPI
strings lines 71 and 125) -/

/-- Decimal digits of `n`, least significant first. -/
def digitsRev (n : Nat) : List Char :=
  if _ : n < 10 then [Nat.digitChar n]
  else Nat.digitChar (n % 10) :: digitsRev (n / 10)
decreasing_by
  exact Nat.div_lt_self (by omega) (by omega)

/-- Decimal rendering of a natural number, most significant digit first
(JS `ToString` applied to a non-negative integer). -/
def natDecimal (n : Nat) : String := String.mk (digitsRev n).reverse

/-- Left-pad a digit list with '0' to length at least `d`. -/
def padTo (d : Nat) (l : List Char) : List Char :=
  List.replicate (d - l.length) '0' ++ l

/-- The integer `n` chosen by ES `Number.prototype.toFixed` for a
non-negative value: `n / 10^d` is closest to the value, ties toward the
larger `n`. -/
def toFixedScaled (q : ℚ) (d : Nat) : Nat :=
  (Int.floor (q * (10 : ℚ) ^ d + 1 / 2)).toNat

/-- ES `toFixed` for a non-negative value: render the digits of the chosen
integer, pad to at least `d + 1` digits and place the point before the last
`d` of them (no point when `d = 0`). -/
def toFixedNat (q : ℚ) (d : Nat) : String :=
  if d = 0 then natDecimal (toFixedScaled q d)
  else natDecimal (toFixedScaled q d / 10 ^ d) ++ "." ++
    String.mk (padTo d (digitsRev (toFixedScaled q d % 10 ^ d)).reverse)

/-- ES `toFixed`: a negative value is rendered as '-' followed by the
rendering of its negation. -/
def toFixed (q : ℚ) (d : Nat) : String :=
  if q < 0 then "-" ++ toFixedNat (-q) d else toFixedNat q d

namespace utils

/-- Line 23, `formatNumber: (num, dec = 2) => num == null ? '--' : Number(num).toFixed(dec)`;
`== null` matches exactly `null` and `undefined`, modelled as `none`. -/
def formatNumber (num : Option ℚ) (dec : Nat) : String :=
  match num with
  | none => "--"
  | some q => toFixed q dec

end utils

/-- The KPI display string (lines 71 and 125):
`(change >= 0 ? '+' : '') + utils.formatNumber(change, 2)`. -/
def kpiText (change : ℚ) : String :=
  (if 0 ≤ change then "+" else "") ++ utils.formatNumber (some change) 2

theorem digitsRev_length_le_two (n : Nat) (h : n < 100) :
    (digitsRev n).length ≤ 2 := by
  rw [digitsRev]
  split_ifs with h1
  · simp
  · rw [digitsRev]
    split_ifs with h2
    · simp
    · omega

theorem toFixedNat_decimals (q : ℚ) :
    ∃ a b : String, toFixedNat q 2 = a ++ "." ++ b ∧ b.length = 2 := by
  refine ⟨natDecimal (toFixedScaled q 2 / 10 ^ 2),
    String.mk (padTo 2 (digitsRev (toFixedScaled q 2 % 10 ^ 2)).reverse), ?_, ?_⟩
  · rw [toFixedNat, if_neg (by decide)]
  · have hlt : toFixedScaled q 2 % 10 ^ 2 < 100 := Nat.mod_lt _ (by norm_num)
    have hlen : (digitsRev (toFixedScaled q 2 % 10 ^ 2)).length ≤ 2 :=
      digitsRev_length_le_two _ hlt
    simp only [String.length, String.mk, padTo, List.length_append,
      List.length_replicate, List.length_reverse]
    omega

/-- C8 — Stat Builder formatting: a missing (null/undefined) value yields
the defined placeholder "--" (the formatter is a total function — it cannot
raise); the KPI string starts with '+' exactly when the delta is
non-negative (a negative delta starts with '-'); and the numeric rendering
carries exactly two digits after the decimal point. -/
theorem c8_kpi_formatting :
    (∀ d, utils.formatNumber none d = "--")
    ∧ (∀ q : ℚ, ((kpiText q).data.head? = some '+') ↔ 0 ≤ q)
    ∧ (∀ q : ℚ, ∃ a b : String, utils.formatNumber (some q) 2 = a ++ "." ++ b
        ∧ b.length = 2) := by
  refine ⟨fun _ => rfl, ?_, ?_⟩
  · intro q
    by_cases hq : 0 ≤ q
    · simp only [kpiText, if_pos hq, String.data_append]
      simp [hq]
    · have hlt : q < 0 := lt_of_not_ge hq
      simp only [kpiText, if_neg hq, utils.formatNumber, toFixed, if_pos hlt,
        String.data_append]
      simp [hq]
  · intro q
    by_cases hq : q < 0
    · obtain ⟨a, b, hab, hb⟩ := toFixedNat_decimals (-q)
      refine ⟨"-" ++ a, b, ?_, hb⟩
      simp only [utils.formatNumber, toFixed, if_pos hq, hab]
      rw [← String.append_assoc, ← String.append_assoc]
    · obtain ⟨a, b, hab, hb⟩ := toFixedNat_decimals q
      refine ⟨a, b, ?_, hb⟩
      simp only [utils.formatNumber, toFixed, if_neg hq, hab]

/-! ## Data freshness (updateStats lines 143–144) -/

/-- JS truthiness of an optional string: `undefined`/`null` and `""` are
falsy. -/
def truthyStr : Option String → Bool
  | none => false
  | some s => !s.isEmpty

/-- JS `a || b`: `b` when `a` is falsy, else `a`. -/
def jsOr (a b : Option String) : Option String := if truthyStr a then a else b

/-- Line 143: `const upd = state.co2Data?.last_updated ||
state.temperatureData?.last_updated || state.seaIceData?.last_updated` —
the first truthy value in the fixed order CO₂, temperature, sea ice. -/
def lastUpdatedValue (co2 temp ice : Option String) : Option String :=
  jsOr co2 (jsOr temp ice)

/-- Line 144: `if (upd) ... = utils.formatDate(upd)` — the freshness text is
rendered only when the chain produced a truthy value. -/
def displayedLastUpdated (co2 temp ice : Option String) : Option String :=
  if truthyStr (lastUpdatedValue co2 temp ice) then lastUpdatedValue co2 temp ice
  else none

/-- The spec's words, for comparison: "the most recent non-null value across
the three indicator documents" — the maximum of the present timestamps
(equal-format ISO-8601 strings compare chronologically under the code-point
order `strLe`). -/
def specFreshness (co2 temp ice : Option String) : Option String :=
  ([co2, temp, ice].filterMap id).foldl
    (fun acc s =>
      match acc with
      | none => some s
      | some t => if strLe t s then some s else some t) none

/-- C4 (amended) — the dashboard-wide freshness indicator is the first
non-empty `last_updated` in the fixed document order CO₂, temperature,
sea ice — not the maximal timestamp. -/
theorem c4_freshness_first_not_max (co2 temp ice : Option String) :
    displayedLastUpdated co2 temp ice =
      ([co2, temp, ice].filterMap id).find? (fun s => !s.isEmpty) := by
  cases co2 <;> cases temp <;> cases ice <;>
    simp only [displayedLastUpdated, lastUpdatedValue, jsOr, truthyStr,
      List.filterMap_cons_none, List.filterMap_cons_some, List.filterMap_nil,
      List.find?] <;>
    repeat' split <;> simp_all

/-- Counterexample for C4: with a CO₂ timestamp of 2020 and a sea-ice
timestamp of 2024 the code displays the CO₂ one (first in the `||` chain),
while the most recent non-null value is the sea-ice one. -/
theorem c4_counterexample :
    lastUpdatedValue (some "2020-01-01T00:00:00Z") none (some "2024-01-01T00:00:00Z")
      = some "2020-01-01T00:00:00Z"
    ∧ specFreshness (some "2020-01-01T00:00:00Z") none (some "2024-01-01T00:00:00Z")
      = some "2024-01-01T00:00:00Z"
    ∧ ("2020-01-01T00:00:00Z" : String) ≠ "2024-01-01T00:00:00Z" := by
  refine ⟨by decide, by decide, by decide⟩

/-! ## updateStats as a whole (lines 51–145) -/

/-- The document `co2_monthly.json` in memory. -/
structure Co2Doc where
  data : List Obs
  last_updated : Option String
deriving DecidableEq

/-- The document `temperature_anomaly.json` in memory. -/
structure TempDoc where
  data : List TObs
  baseline : Option String
  last_updated : Option String
deriving DecidableEq

/-- The CO₂ stat tile text (lines 53–74): skipped (`none`) unless the
document and a non-empty data array are present. -/
def co2Stat (co2 : Option Co2Doc) : Option String :=
  match co2 with
  | none => none
  | some doc => if doc.data.isEmpty then none else some (kpiText (co2Change doc.data))

/-- The temperature stat tile text (lines 89–101):
`(latestTemp.anomaly >= 0 ? '+' : '') + utils.formatNumber(latestTemp.anomaly, 2)`
for the last array element. -/
def tempStat (temp : Option TempDoc) : Option String :=
  match temp with
  | none => none
  | some doc =>
    match doc.data.getLast? with
    | none => none
    | some l => some ((if 0 ≤ l.anomaly then "+" else "") ++
        utils.formatNumber (some l.anomaly) 2)

/-- The sea-ice stat tile text (lines 104–141): skipped when the document is
absent, has no year keys, or the latest year's array is empty. -/
def iceStat (ice : Option SeaIceDoc) : Option String :=
  match ice with
  | none => none
  | some doc => (seaIceDiff doc).map kpiText

/-- The outputs of one `updateStats()` pass relevant to the claims. -/
structure StatsOut where
  co2Kpi : Option String
  tempKpi : Option String
  iceKpi : Option String
  lastUpdatedText : Option String
deriving DecidableEq

/-- The function `updateStats()` (lines 51–145): each indicator's stat tile is computed
from its own document alone; the freshness line from the three
`last_updated` fields. -/
def updateStats (co2 : Option Co2Doc) (temp : Option TempDoc)
    (ice : Option SeaIceDoc) : StatsOut :=
  { co2Kpi := co2Stat co2
  , tempKpi := tempStat temp
  , iceKpi := iceStat ice
  , lastUpdatedText := displayedLastUpdated (co2.bind Co2Doc.last_updated)
      (temp.bind TempDoc.last_updated) (ice.bind SeaIceDoc.last_updated) }

/-- C10 — when the sea-ice document's most recent year key maps to an empty
observation array, `latestYearData[latestYearData.length - 1]` is undefined,
the `if (latestMonth)` guard skips the whole sea-ice stat tile (the
embedding is a total function — nothing is raised), and the other
indicators' stat tiles are exactly what they are for every other sea-ice
document. -/
theorem c10_empty_latest_year_skips (co2 : Option Co2Doc) (temp : Option TempDoc)
    (doc : SeaIceDoc) (y : Int)
    (hy : ((List.insertionSort yearKeyLe (iceYears doc)).reverse).head? = some y)
    (he : lookupYear doc y = some []) :
    (updateStats co2 temp (some doc)).iceKpi = none
    ∧ ∀ ice2, (updateStats co2 temp ice2).co2Kpi = (updateStats co2 temp (some doc)).co2Kpi
        ∧ (updateStats co2 temp ice2).tempKpi = (updateStats co2 temp (some doc)).tempKpi := by
  constructor
  · have hlat : seaIceLatest doc = none := by
      simp [seaIceLatest, hy, he]
    simp [updateStats, iceStat, seaIceDiff, hlat]
  · intro ice2
    exact ⟨rfl, rfl⟩

/-- Witness for C10: sea-ice data `{"2024": []}` skips the sea-ice tile and
leaves the CO₂ and temperature tiles untouched. -/
theorem c10_witness :
    (updateStats none none (some ⟨[(2024, [])], none, none⟩)).iceKpi = none
    ∧ (updateStats none none (some ⟨[], none, none⟩)).co2Kpi
        = (updateStats none none (some ⟨[(2024, [])], none, none⟩)).co2Kpi
    ∧ (updateStats none none (some ⟨[], none, none⟩)).tempKpi
        = (updateStats none none (some ⟨[(2024, [])], none, none⟩)).tempKpi := by
  have h := c10_empty_latest_year_skips none none ⟨[(2024, [])], none, none⟩ 2024 rfl rfl
  exact ⟨h.1, (h.2 (some ⟨[], none, none⟩)).1, (h.2 (some ⟨[], none, none⟩)).2⟩

/-! ## Chart-Spec Builders (renderCO2Chart lines 180–200, renderSeaIceChart
lines 261–271) -/

/-- renderCO2Chart: year series (name = year key string) in `outputYears`
order, then `series.push({name: '1991-2020 Mittel', data: baselineData})`. -/
def co2Series (data : List Obs) : List (String × List (Option ℚ)) :=
  ((outputYears data 5).map (fun y => (toString y, bucket data y)))
    ++ [("1991-2020 Mittel", getMonthlyBaseline data 1991 2020)]

/-- renderSeaIceChart lines 263–266: the 12-slot array built from one year
key's observation array. -/
def iceBucket (yd : List IceObs) : List (Option ℚ) :=
  yd.foldl (fun md d =>
      if 1 ≤ d.month ∧ d.month ≤ 12 then md.set (d.month - 1).toNat (some d.extent)
      else md)
    (List.replicate 12 none)

/-- renderSeaIceChart lines 268–271: the median series slots
(`const i = parseInt(m) - 1; if (i >= 0 && i < 12) md[i] = median[m]`;
object keys are distinct). -/
def medianCurve (med : List (Int × ℚ)) : List (Option ℚ) :=
  med.foldl (fun md p =>
      if 1 ≤ p.1 ∧ p.1 ≤ 12 then md.set (p.1 - 1).toNat (some p.2) else md)
    (List.replicate 12 none)

/-- renderSeaIceChart lines 261–271: year series for the five greatest year
keys in `sort().reverse()` order, plus the median series pushed last when a
median object is present. -/
def seaIceSeries (doc : SeaIceDoc) : List (String × List (Option ℚ)) :=
  (((List.insertionSort yearKeyLe (iceYears doc)).reverse.take 5).map
    (fun y => (toString y, iceBucket ((lookupYear doc y).getD []))))
  ++ (match doc.median with
      | some med => [("1981-2010 Median", medianCurve med)]
      | none => [])

/-- C7 (amended) — in both chart-spec builders the reference/median series
is strictly last (for sea ice: whenever a median object is present) and the
year series precede it in descending lexicographic year-key order — the
`Object.keys(..).sort().reverse()` order, independent of the observation
order of the document; this equals most-recent-year-first only when the
year keys' decimal strings have equal length. -/
theorem c7_series_order (data : List Obs) (doc : SeaIceDoc) :
    (co2Series data).getLast? = some ("1991-2020 Mittel", getMonthlyBaseline data 1991 2020)
    ∧ (co2Series data).dropLast.map Prod.fst = (outputYears data 5).map toString
    ∧ List.Pairwise (fun a b => yearKeyLe b a) (outputYears data 5)
    ∧ (∀ med, doc.median = some med →
        (seaIceSeries doc).getLast? = some ("1981-2010 Median", medianCurve med)) := by
  refine ⟨?_, ?_, outputYears_pairwise data 5, ?_⟩
  · simp [co2Series, List.getLast?_append]
  · rw [co2Series, List.dropLast_concat, List.map_map]
    rfl
  · intro med hm
    simp [seaIceSeries, hm, List.getLast?_append]

/-- Counterexample for C7: with year keys 9 and 10 the first CO₂ chart
series is year "9", although year 10 is present and numerically more
recent; so the most-recent-year-first half of the claim fails (the
reference-last half does hold). -/
theorem c7_counterexample :
    (co2Series [⟨9, 1, 1⟩, ⟨10, 1, 2⟩]).map Prod.fst = ["9", "10", "1991-2020 Mittel"]
    ∧ (9 : Int) < 10
    ∧ (10 : Int) ∈ yearsOf [⟨9, 1, 1⟩, ⟨10, 1, 2⟩] := by
  refine ⟨by decide, by decide, by decide⟩

/-- Witness for C7 (amended): the baseline series is last for a concrete
CO₂ document, and the median series is last for a concrete sea-ice document
with a median object. -/
theorem c7_witness :
    (co2Series [⟨2024, 1, 420⟩]).getLast?
      = some ("1991-2020 Mittel", getMonthlyBaseline [⟨2024, 1, 420⟩] 1991 2020)
    ∧ (seaIceSeries ⟨[(2024, [⟨9, 5⟩])], some [(9, 4)], none⟩).getLast?
      = some ("1981-2010 Median", medianCurve [(9, 4)]) := by
  have h := c7_series_order [⟨2024, 1, 420⟩] ⟨[(2024, [⟨9, 5⟩])], some [(9, 4)], none⟩
  exact ⟨h.1, h.2.2.2 [(9, 4)] rfl⟩

end ClimateDashboard
